import Mathlib

/-!
# Verification of the OpenVPN control-channel packet layer headers

Shallow embedding of `src/openvpn/mtu.h`, `src/openvpn/ssl_pkt.h` and
`src/openvpn/dco.h`.  C `int` fields are modelled as `Int`; byte buffers
as `List Nat` (each element a byte value); bitwise operations on
two's-complement machine integers are translated to the equivalent
arithmetic (`x & 3` on a two's-complement `int` equals `x.emod 4`).

Functions whose bodies live in `.c` files that are not part of the
repository snapshot (`tls_pre_decrypt_lite`, `write_control_auth`,
`read_control_auth`, `frame_set_mtu_dynamic`) are modelled from the
specification's description of them; each such definition carries a
doc comment saying so.
-/

namespace OpenVPN

/-! ## mtu.h: packet geometry -/

/-- `PAYLOAD_ALIGN` from mtu.h: alignment of payload data. -/
def PAYLOAD_ALIGN : Int := 4

/-- `struct frame` from mtu.h (packet geometry parameters).
`mss_fix` is `unsigned int` in the source; the remaining fields are `int`. -/
structure frame where
  link_mtu : Int
  mss_fix : Nat
  link_mtu_dynamic : Int
  extra_frame : Int
  extra_buffer : Int
  extra_tun : Int
  extra_link : Int
deriving DecidableEq

/-- `TUN_LINK_DELTA(f)` macro: `extra_frame + extra_tun`. -/
def TUN_LINK_DELTA (f : frame) : Int := f.extra_frame + f.extra_tun

/-- `FRAME_HEADROOM_BASE(f)` macro:
`TUN_LINK_DELTA(f) + extra_buffer + extra_link`. -/
def FRAME_HEADROOM_BASE (f : frame) : Int :=
  TUN_LINK_DELTA f + f.extra_buffer + f.extra_link

/-- `EXPANDED_SIZE(f)` macro: `link_mtu`. -/
def EXPANDED_SIZE (f : frame) : Int := f.link_mtu

/-- `MAX_RW_SIZE_LINK(f)` macro: `EXPANDED_SIZE(f) + extra_link`. -/
def MAX_RW_SIZE_LINK (f : frame) : Int := EXPANDED_SIZE f + f.extra_link

/-- `frame_headroom` from mtu.h:
```c
const int offset = FRAME_HEADROOM_BASE(f);
const int delta = ((PAYLOAD_ALIGN << 24) - offset) & (PAYLOAD_ALIGN - 1);
return offset + delta;
```
`PAYLOAD_ALIGN << 24` is the constant `4 * 2 ^ 24`; masking a
two's-complement `int` with `PAYLOAD_ALIGN - 1 = 3` keeps its low two
bits, which is exactly the mathematical remainder modulo
`PAYLOAD_ALIGN` (`Int.emod`, always non-negative). -/
def frame_headroom (f : frame) : Int :=
  let offset := FRAME_HEADROOM_BASE f
  let delta := (PAYLOAD_ALIGN * 2 ^ 24 - offset) % PAYLOAD_ALIGN
  offset + delta

/-- `frame_defined` from mtu.h: `frame->link_mtu > 0`. -/
def frame_defined (f : frame) : Bool := f.link_mtu > 0

/-- `SET_MTU_TUN` flag from mtu.h (`1<<0`). -/
def SET_MTU_TUN : Nat := 1

/-- `SET_MTU_UPPER_BOUND` flag from mtu.h (`1<<1`). -/
def SET_MTU_UPPER_BOUND : Nat := 2

/-- Modelled from the spec: the body of `frame_set_mtu_dynamic` lives in
`mtu.c`, which is not part of the repository snapshot (mtu.h only
declares it and defines its flags).  Per the spec, it sets
`link_mtu_dynamic`; flag `UPPER_BOUND` makes the assignment a monotonic
decrease only (new value = min(current, mtu)); flag `TUN` interprets
`mtu` as tunnel-side rather than link-side, translated through
`extra_frame`/`extra_tun` (i.e. `TUN_LINK_DELTA`). -/
def frame_set_mtu_dynamic (f : frame) (mtu : Int) (flags : Nat) : frame :=
  let m := if flags &&& SET_MTU_TUN ≠ 0 then mtu + TUN_LINK_DELTA f else mtu
  let v := if flags &&& SET_MTU_UPPER_BOUND ≠ 0 then min f.link_mtu_dynamic m else m
  { f with link_mtu_dynamic := v }

/-! ## ssl_pkt.h: opcodes and the header byte -/

/-- `P_KEY_ID_MASK` from ssl_pkt.h: low 3 bits of the header byte. -/
def P_KEY_ID_MASK : Nat := 0x07

/-- `P_OPCODE_SHIFT` from ssl_pkt.h: the opcode occupies the high 5 bits. -/
def P_OPCODE_SHIFT : Nat := 3

/-- `P_CONTROL_HARD_RESET_CLIENT_V1` from ssl_pkt.h. -/
def P_CONTROL_HARD_RESET_CLIENT_V1 : Nat := 1

/-- `P_CONTROL_HARD_RESET_SERVER_V1` from ssl_pkt.h. -/
def P_CONTROL_HARD_RESET_SERVER_V1 : Nat := 2

/-- `P_CONTROL_SOFT_RESET_V1` from ssl_pkt.h. -/
def P_CONTROL_SOFT_RESET_V1 : Nat := 3

/-- `P_CONTROL_V1` from ssl_pkt.h. -/
def P_CONTROL_V1 : Nat := 4

/-- `P_ACK_V1` from ssl_pkt.h. -/
def P_ACK_V1 : Nat := 5

/-- `P_DATA_V1` from ssl_pkt.h. -/
def P_DATA_V1 : Nat := 6

/-- `P_DATA_V2` from ssl_pkt.h. -/
def P_DATA_V2 : Nat := 9

/-- `P_CONTROL_HARD_RESET_CLIENT_V2` from ssl_pkt.h. -/
def P_CONTROL_HARD_RESET_CLIENT_V2 : Nat := 7

/-- `P_CONTROL_HARD_RESET_SERVER_V2` from ssl_pkt.h. -/
def P_CONTROL_HARD_RESET_SERVER_V2 : Nat := 8

/-- `P_CONTROL_HARD_RESET_CLIENT_V3` from ssl_pkt.h. -/
def P_CONTROL_HARD_RESET_CLIENT_V3 : Nat := 10

/-- `P_FIRST_OPCODE` from ssl_pkt.h (key-method 1 opcodes are invalid). -/
def P_FIRST_OPCODE : Nat := 3

/-- `P_LAST_OPCODE` from ssl_pkt.h. -/
def P_LAST_OPCODE : Nat := 10

/-- Composition of the one-byte wire header: opcode in the high 5 bits
(shifted by `P_OPCODE_SHIFT`), key-id in the low 3 bits
(`P_KEY_ID_MASK`), as described by the ssl_pkt.h comment
"packet opcode (high 5 bits) and key-id (low 3 bits) are combined in
one byte". -/
def pkt_header_byte (opcode key_id : Nat) : Nat :=
  ((opcode <<< P_OPCODE_SHIFT) ||| (key_id &&& P_KEY_ID_MASK)) % 256

/-- Opcode extraction from the header byte: `op = *BPTR(buf) >> P_OPCODE_SHIFT`. -/
def pkt_opcode (b : Nat) : Nat := b >>> P_OPCODE_SHIFT

/-- Key-id extraction from the header byte: `key_id = *BPTR(buf) & P_KEY_ID_MASK`. -/
def pkt_key_id (b : Nat) : Nat := b &&& P_KEY_ID_MASK

/-- The structural opcode validity check derived from ssl_pkt.h's
`P_FIRST_OPCODE`/`P_LAST_OPCODE` range. -/
def pkt_opcode_valid (op : Nat) : Bool :=
  decide (P_FIRST_OPCODE ≤ op) && decide (op ≤ P_LAST_OPCODE)

/-- `packet_opcode_name` from ssl_pkt.h, a `switch` on the `int` opcode
with a `"P_???"` default. -/
def packet_opcode_name (op : Int) : String :=
  if op = (P_CONTROL_HARD_RESET_CLIENT_V1 : Nat) then "P_CONTROL_HARD_RESET_CLIENT_V1"
  else if op = (P_CONTROL_HARD_RESET_SERVER_V1 : Nat) then "P_CONTROL_HARD_RESET_SERVER_V1"
  else if op = (P_CONTROL_HARD_RESET_CLIENT_V2 : Nat) then "P_CONTROL_HARD_RESET_CLIENT_V2"
  else if op = (P_CONTROL_HARD_RESET_SERVER_V2 : Nat) then "P_CONTROL_HARD_RESET_SERVER_V2"
  else if op = (P_CONTROL_HARD_RESET_CLIENT_V3 : Nat) then "P_CONTROL_HARD_RESET_CLIENT_V3"
  else if op = (P_CONTROL_SOFT_RESET_V1 : Nat) then "P_CONTROL_SOFT_RESET_V1"
  else if op = (P_CONTROL_V1 : Nat) then "P_CONTROL_V1"
  else if op = (P_ACK_V1 : Nat) then "P_ACK_V1"
  else if op = (P_DATA_V1 : Nat) then "P_DATA_V1"
  else if op = (P_DATA_V2 : Nat) then "P_DATA_V2"
  else "P_???"

/-- `enum first_packet_verdict` from ssl_pkt.h: the three possible
classifications of a pre-session datagram. -/
inductive first_packet_verdict where
  | VERDICT_VALID_RESET
  | VERDICT_VALID_CONTROL_V1
  | VERDICT_INVALID
deriving DecidableEq

/-! ## Spec-modelled codec state

The bodies of `write_control_auth`, `read_control_auth` and
`tls_pre_decrypt_lite`, and the types `tls_wrap_ctx` (ssl_common.h),
`session_id` (session_id.h) and the replay window (packet_id.h), are not
part of the repository snapshot; ssl_pkt.h only declares them.  They are
modelled from the specification (§4.2, §6 wire format, §3 data model). -/

/-- Modelled from the spec: the session id is a "fixed-size random
identifier"; its size is fixed at 8 bytes. -/
def SESSION_ID_SIZE : Nat := 8

/-- Modelled from the spec: replay window size pinned to 64 as the spec's
replay test prescribes ("test must pin window size explicitly, e.g.
window=64"). -/
def REPLAY_WINDOW_SIZE : Nat := 64

/-- Modelled from the spec: the replay window, "a fixed-size
bitmask/sequence structure tracking recently seen packet ids":
`top` is the highest id seen so far, `seen` the marked ids. -/
structure packet_id_rec where
  top : Nat
  seen : List Nat
deriving DecidableEq

/-- Modelled from the spec: replay acceptance test — accept "packet ids
within a bounded backward window of the highest seen id ... or any
higher id", reject "duplicates and ids older than the window". -/
def packet_id_test (p : packet_id_rec) (pid : Nat) : Bool :=
  if p.top < pid then true
  else if pid + REPLAY_WINDOW_SIZE ≤ p.top then false
  else !(p.seen.contains pid)

/-- Modelled from the spec: marking a packet id as seen (sliding the
window forward when the id is higher than any seen). -/
def packet_id_add (p : packet_id_rec) (pid : Nat) : packet_id_rec :=
  { top := max p.top pid, seen := pid :: p.seen }

/-- Modelled from the spec: the three control-channel wrap modes —
plain, HMAC-signed ("authenticate"), encrypted-and-authenticated. -/
inductive tls_wrap_mode where
  | TLS_WRAP_NONE
  | TLS_WRAP_AUTH
  | TLS_WRAP_CRYPT
deriving DecidableEq

/-- Modelled from the spec: `struct tls_wrap_ctx` (declared in
ssl_common.h, absent from the snapshot) — the wrap mode, the local and
peer key material handles, the cipher key handle, and the replay
window state. -/
structure tls_wrap_ctx where
  mode : tls_wrap_mode
  local_key : Nat
  peer_key : Nat
  crypt_key : Nat
  replay : packet_id_rec
deriving DecidableEq

/-- Modelled from the spec: the external crypto provider (§6) exposing
HMAC-compute (a fixed-length tag over key and message), and
encrypt/decrypt where decryption is fallible (tag verification). -/
structure crypto_provider where
  hmac : Nat → List Nat → List Nat
  hmac_len : Nat
  enc : Nat → List Nat → List Nat
  dec : Nat → List Nat → Option (List Nat)

/-- Well-formedness of a crypto provider: HMAC tags have the advertised
fixed length, and decryption inverts encryption under the same key. -/
def crypto_provider.wf (cp : crypto_provider) : Prop :=
  (∀ k m, (cp.hmac k m).length = cp.hmac_len) ∧
  (∀ k m, cp.dec k (cp.enc k m) = some m)

/-- Big-endian 4-byte encoding of a 32-bit quantity (packet id,
timestamp) as used by the wire format. -/
def encode4 (n : Nat) : List Nat :=
  [n / 2 ^ 24 % 256, n / 2 ^ 16 % 256, n / 2 ^ 8 % 256, n % 256]

/-- Big-endian decoding of a 4-byte field. -/
def decode4 : List Nat → Nat
  | [a, b, c, d] => ((a * 256 + b) * 256 + c) * 256 + d
  | _ => 0

/-- Modelled from the spec: the optional acknowledgement block —
`[ack-count(1)][ack-count × packet-id(4)][remote-session-id?]`, present
"only if `prepend_ack` is set and at least one ack is pending". -/
def write_ack_block (acks : List Nat) (remote_sid : List Nat)
    (prepend_ack : Bool) : List Nat :=
  if prepend_ack && !acks.isEmpty then
    acks.length % 256 :: (acks.flatMap encode4 ++ remote_sid)
  else []

/-- Modelled from the spec: `write_control_auth` (ssl_pkt.c is absent
from the snapshot).  Produces the authenticated record per §6:
* plain: `[header][session-id][ack-block?][payload]`;
* authenticate: `[header][session-id][packet-id(4)][timestamp(4)][HMAC][ack-block?][payload]`,
  the HMAC computed over packet-id, timestamp and payload with the
  local HMAC key;
* encrypt-and-authenticate: `[header][session-id][packet-id(4)][timestamp(4)][ciphertext incl. auth tag]`,
  the ack block placed inside the encrypted region.
Opcode and key-id are packed into the leading header byte. -/
def write_control_auth (cp : crypto_provider) (ctx : tls_wrap_ctx)
    (opcode key_id : Nat) (sid remote_sid : List Nat) (acks : List Nat)
    (prepend_ack : Bool) (pid ts : Nat) (buf : List Nat) : List Nat :=
  let header := pkt_header_byte opcode key_id
  let body := write_ack_block acks remote_sid prepend_ack ++ buf
  match ctx.mode with
  | .TLS_WRAP_NONE => header :: sid ++ body
  | .TLS_WRAP_AUTH =>
      let tagged := encode4 pid ++ encode4 ts
      header :: sid ++ tagged ++ cp.hmac ctx.local_key (tagged ++ body) ++ body
  | .TLS_WRAP_CRYPT =>
      let tagged := encode4 pid ++ encode4 ts
      header :: sid ++ tagged ++ cp.enc ctx.crypt_key body

/-- Modelled from the spec: `read_control_auth` (ssl_pkt.c is absent
from the snapshot), the inverse transform of `write_control_auth`.
For authenticate mode it recomputes the HMAC with the peer key and
compares; for encrypt mode it decrypts and verifies the tag; in both
authenticated modes the packet id feeds the replay-window check.  The
result is `(ok, ctx, de-wrapped bytes)`: on any failure it returns
`false` with the wrap context (including its replay window) unchanged
and no output bytes; on success the replay window records the packet
id. -/
def read_control_auth (cp : crypto_provider) (ctx : tls_wrap_ctx) :
    List Nat → Bool × tls_wrap_ctx × List Nat
  | [] => (false, ctx, [])
  | _header :: rest =>
    if rest.length < SESSION_ID_SIZE then (false, ctx, [])
    else
      let sid := rest.take SESSION_ID_SIZE
      let rest2 := rest.drop SESSION_ID_SIZE
      match ctx.mode with
      | .TLS_WRAP_NONE => (true, ctx, rest)
      | .TLS_WRAP_AUTH =>
        if rest2.length < 8 + cp.hmac_len then (false, ctx, [])
        else
          let pid := decode4 (rest2.take 4)
          let tagged := rest2.take 8
          let mac := (rest2.drop 8).take cp.hmac_len
          let body := rest2.drop (8 + cp.hmac_len)
          if cp.hmac ctx.peer_key (tagged ++ body) = mac then
            if packet_id_test ctx.replay pid then
              (true, { ctx with replay := packet_id_add ctx.replay pid },
               sid ++ body)
            else (false, ctx, [])
          else (false, ctx, [])
      | .TLS_WRAP_CRYPT =>
        if rest2.length < 8 then (false, ctx, [])
        else
          let pid := decode4 (rest2.take 4)
          match cp.dec ctx.crypt_key (rest2.drop 8) with
          | none => (false, ctx, [])
          | some body =>
            if packet_id_test ctx.replay pid then
              (true, { ctx with replay := packet_id_add ctx.replay pid },
               sid ++ body)
            else (false, ctx, [])

/-- `struct tls_auth_standalone` from ssl_pkt.h: the pre-shared wrap
context plus a frame, used only for pre-session inspection. -/
structure tls_auth_standalone where
  tls_wrap : tls_wrap_ctx
  frame : frame
deriving DecidableEq

/-- `struct tls_pre_decrypt_state` from ssl_pkt.h: the temporary data
for the tls lite decrypt functions — a scratch wrap context, the
de-wrapped output buffer, and the extracted peer session id. -/
structure tls_pre_decrypt_state where
  tls_wrap_tmp : tls_wrap_ctx
  newbuf : List Nat
  peer_session_id : List Nat
deriving DecidableEq

/-- Modelled from the spec: the minimum pre-session header — the leading
header byte plus the fixed-size session id. -/
def MIN_PRE_DECRYPT_LEN : Nat := 1 + SESSION_ID_SIZE

/-- Modelled from the spec: whether an opcode is one of the hard-reset
variants (new-tunnel request), i.e. `P_CONTROL_HARD_RESET_CLIENT_V2`,
`P_CONTROL_HARD_RESET_SERVER_V2` or `P_CONTROL_HARD_RESET_CLIENT_V3`. -/
def pkt_is_hard_reset (op : Nat) : Bool :=
  op = P_CONTROL_HARD_RESET_CLIENT_V2 || op = P_CONTROL_HARD_RESET_SERVER_V2 ||
    op = P_CONTROL_HARD_RESET_CLIENT_V3

/-- Modelled from the spec: whether an opcode is a control/ack/soft-reset
class packet, legal only for a continuing session. -/
def pkt_is_control_class (op : Nat) : Bool :=
  op = P_CONTROL_SOFT_RESET_V1 || op = P_CONTROL_V1 || op = P_ACK_V1

/-- Modelled from the spec: `tls_pre_decrypt_lite` (ssl_pkt.c is absent
from the snapshot), following §4.2 steps 1–5:
1. reject datagrams smaller than the minimum header or larger than the
   maximum legal packet size (`MAX_RW_SIZE_LINK` of the standalone
   frame);
2. extract opcode and key-id from the leading byte; reject opcodes
   outside the valid closed set (`pkt_opcode_valid`) and, for
   reset-class opcodes, a key-id other than 0;
3. hard-reset variants: run the wrap-mode authentication check against
   the local pre-shared key; on success extract the peer session id
   into the scratch state and return `VERDICT_VALID_RESET`;
4. control/ack/soft-reset class: same check, but return
   `VERDICT_VALID_CONTROL_V1` on success;
5. anything else (including authentication failure) is
   `VERDICT_INVALID`.
The configuration `tas` is read-only; the only state written is the
caller-owned scratch `tls_pre_decrypt_state`, returned alongside the
verdict. -/
def tls_pre_decrypt_lite (cp : crypto_provider) (tas : tls_auth_standalone)
    (st : tls_pre_decrypt_state) (buf : List Nat) :
    first_packet_verdict × tls_pre_decrypt_state :=
  if buf.length < MIN_PRE_DECRYPT_LEN then (.VERDICT_INVALID, st)
  else if decide (MAX_RW_SIZE_LINK tas.frame < (buf.length : Int)) then
    (.VERDICT_INVALID, st)
  else
    match buf with
    | [] => (.VERDICT_INVALID, st)
    | b :: rest =>
      let op := pkt_opcode b
      let key_id := pkt_key_id b
      if !pkt_opcode_valid op then (.VERDICT_INVALID, st)
      else if pkt_is_hard_reset op then
        if key_id ≠ 0 then (.VERDICT_INVALID, st)
        else
          let r := read_control_auth cp tas.tls_wrap buf
          if r.1 then
            (.VERDICT_VALID_RESET,
             { tls_wrap_tmp := r.2.1, newbuf := r.2.2,
               peer_session_id := rest.take SESSION_ID_SIZE })
          else (.VERDICT_INVALID, st)
      else if pkt_is_control_class op then
        let r := read_control_auth cp tas.tls_wrap buf
        if r.1 then
          (.VERDICT_VALID_CONTROL_V1,
           { tls_wrap_tmp := r.2.1, newbuf := r.2.2,
             peer_session_id := rest.take SESSION_ID_SIZE })
        else (.VERDICT_INVALID, st)
      else (.VERDICT_INVALID, st)

/-- The call frame of a `tls_pre_decrypt_lite` invocation: the C function
receives pointers to the standalone configuration, the scratch state and
the incoming packet buffer.  State passing makes each of them explicit
so that (non-)mutation is expressible. -/
structure lite_call_state where
  tas : tls_auth_standalone
  st : tls_pre_decrypt_state
  buf : List Nat
deriving DecidableEq

/-- One `tls_pre_decrypt_lite` call over an explicit call frame: the
verdict is returned and only the scratch state component is replaced. -/
def tls_pre_decrypt_lite_call (cp : crypto_provider) (w : lite_call_state) :
    first_packet_verdict × lite_call_state :=
  let r := tls_pre_decrypt_lite cp w.tas w.st w.buf
  (r.1, { tas := w.tas, st := r.2, buf := w.buf })

/-! ## dco.h: the stub branch compiled when `ENABLE_DCO` is absent -/

/-- The DCO operations declared in dco.h. -/
inductive dco_op where
  | dco_available
  | dco_check_option_conflict
  | ovpn_dco_init
  | open_tun_dco
  | close_tun_dco
  | dco_do_read
  | dco_do_write
  | dco_event_set
  | init_key_dco_bi
  | dco_update_keys
  | dco_p2p_add_new_peer
  | dco_set_peer
  | dco_remove_peer
  | dco_multi_add_new_peer
  | dco_install_iroute
  | dco_delete_iroutes
  | dco_get_supported_ciphers
deriving DecidableEq

/-- Observable behaviour of a dco.h stub: returning a value, doing
nothing, or triggering a fatal `ASSERT(false)`. -/
inductive stub_result where
  | ret_bool (b : Bool)
  | ret_int (n : Int)
  | ret_string (s : String)
  | no_op
  | fatal_assert
deriving DecidableEq

/-- Transcription of the `#else /* if defined(ENABLE_DCO) */` branch of
dco.h: the behaviour of every DCO operation when the DCO capability is
absent from the build.  `dco_do_read`, `dco_do_write` and
`dco_update_keys` execute `ASSERT(false)` before their `return`, so the
observable behaviour of calling them is the fatal assertion. -/
def dco_stub (op : dco_op) : stub_result :=
  match op with
  | .dco_available => .ret_bool false
  | .dco_check_option_conflict => .ret_bool false
  | .ovpn_dco_init => .ret_bool true
  | .open_tun_dco => .ret_int 0
  | .close_tun_dco => .no_op
  | .dco_do_read => .fatal_assert
  | .dco_do_write => .fatal_assert
  | .dco_event_set => .no_op
  | .init_key_dco_bi => .ret_int 0
  | .dco_update_keys => .fatal_assert
  | .dco_p2p_add_new_peer => .ret_bool true
  | .dco_set_peer => .ret_int 0
  | .dco_remove_peer => .no_op
  | .dco_multi_add_new_peer => .ret_bool true
  | .dco_install_iroute => .no_op
  | .dco_delete_iroutes => .no_op
  | .dco_get_supported_ciphers => .ret_string ""

/-- A stub behaviour counts as "a no-op or reporting
unsupported/unavailable" when it does nothing or merely returns a
value; a fatal assertion aborts the process and is neither. -/
def stub_benign : stub_result → Bool
  | .fatal_assert => false
  | _ => true

/-! ## Concrete fixtures used by witnesses -/

/-- A trivial but well-formed crypto provider: one-byte HMAC tags and
identity encryption. -/
def trivial_crypto : crypto_provider :=
  { hmac := fun k _ => [k % 256], hmac_len := 1,
    enc := fun _ m => m, dec := fun _ m => some m }

/-- A fresh, empty replay window. -/
def empty_replay : packet_id_rec := { top := 0, seen := [] }

/-- A plain-mode wrap context with zeroed key handles. -/
def none_wrap : tls_wrap_ctx :=
  { mode := .TLS_WRAP_NONE, local_key := 0, peer_key := 0, crypt_key := 0,
    replay := empty_replay }

/-- An authenticate-mode wrap context with zeroed key handles. -/
def auth_wrap : tls_wrap_ctx :=
  { mode := .TLS_WRAP_AUTH, local_key := 0, peer_key := 0, crypt_key := 0,
    replay := empty_replay }

/-- A standalone configuration over a plain 1500-byte frame. -/
def test_tas : tls_auth_standalone :=
  { tls_wrap := auth_wrap,
    frame := { link_mtu := 1500, mss_fix := 0, link_mtu_dynamic := 1500,
               extra_frame := 0, extra_buffer := 0, extra_tun := 0,
               extra_link := 0 } }

/-- An empty scratch state. -/
def empty_state : tls_pre_decrypt_state :=
  { tls_wrap_tmp := auth_wrap, newbuf := [], peer_session_id := [] }

/-! ## List helpers -/

/-- Taking exactly the length of the left part of an append yields it. -/
theorem take_append_len {α : Type} (l1 l2 : List α) (n : Nat)
    (h : l1.length = n) : (l1 ++ l2).take n = l1 := by
  subst h
  simp

/-- Dropping exactly the length of the left part of an append yields the
right part. -/
theorem drop_append_len {α : Type} (l1 l2 : List α) (n : Nat)
    (h : l1.length = n) : (l1 ++ l2).drop n = l2 := by
  subst h
  simp

/-- `encode4` always produces 4 bytes. -/
theorem encode4_length (n : Nat) : (encode4 n).length = 4 := rfl

/-- `decode4` inverts `encode4` on 32-bit values. -/
theorem decode4_encode4 (n : Nat) (h : n < 2 ^ 32) :
    decode4 (encode4 n) = n := by
  simp only [encode4, decode4]
  omega

/-- Unfolding of `read_control_auth` on a non-empty buffer. -/
theorem read_control_auth_cons (cp : crypto_provider) (ctx : tls_wrap_ctx)
    (hdr : Nat) (rest : List Nat) :
    read_control_auth cp ctx (hdr :: rest)
      = (if rest.length < SESSION_ID_SIZE then (false, ctx, [])
         else
           let sid := rest.take SESSION_ID_SIZE
           let rest2 := rest.drop SESSION_ID_SIZE
           match ctx.mode with
           | .TLS_WRAP_NONE => (true, ctx, rest)
           | .TLS_WRAP_AUTH =>
             if rest2.length < 8 + cp.hmac_len then (false, ctx, [])
             else
               let pid := decode4 (rest2.take 4)
               let tagged := rest2.take 8
               let mac := (rest2.drop 8).take cp.hmac_len
               let body := rest2.drop (8 + cp.hmac_len)
               if cp.hmac ctx.peer_key (tagged ++ body) = mac then
                 if packet_id_test ctx.replay pid then
                   (true, { ctx with replay := packet_id_add ctx.replay pid },
                    sid ++ body)
                 else (false, ctx, [])
               else (false, ctx, [])
           | .TLS_WRAP_CRYPT =>
             if rest2.length < 8 then (false, ctx, [])
             else
               let pid := decode4 (rest2.take 4)
               match cp.dec ctx.crypt_key (rest2.drop 8) with
               | none => (false, ctx, [])
               | some body =>
                 if packet_id_test ctx.replay pid then
                   (true, { ctx with replay := packet_id_add ctx.replay pid },
                    sid ++ body)
                 else (false, ctx, [])) := rfl

/-- Evaluation of `read_control_auth` on a plain-mode record. -/
theorem read_none_record (cp : crypto_provider) (ctx : tls_wrap_ctx)
    (hdr : Nat) (sid body : List Nat)
    (hmode : ctx.mode = .TLS_WRAP_NONE)
    (hsid : sid.length = SESSION_ID_SIZE) :
    read_control_auth cp ctx (hdr :: (sid ++ body))
      = (true, ctx, sid ++ body) := by
  rw [read_control_auth_cons]
  simp only [hmode]
  rw [if_neg (by simp only [List.length_append, hsid]; omega)]

/-- Evaluation of `read_control_auth` on a well-formed authenticate-mode
record whose HMAC verifies and whose packet id passes the replay test. -/
theorem read_auth_record (cp : crypto_provider) (ctx : tls_wrap_ctx)
    (hdr : Nat) (sid tagged mac body : List Nat)
    (hmode : ctx.mode = .TLS_WRAP_AUTH)
    (hsid : sid.length = SESSION_ID_SIZE) (htag : tagged.length = 8)
    (hmac : mac.length = cp.hmac_len)
    (hver : cp.hmac ctx.peer_key (tagged ++ body) = mac)
    (hrep : packet_id_test ctx.replay (decode4 (tagged.take 4)) = true) :
    read_control_auth cp ctx (hdr :: (sid ++ (tagged ++ (mac ++ body))))
      = (true,
         { ctx with replay :=
             packet_id_add ctx.replay (decode4 (tagged.take 4)) },
         sid ++ body) := by
  have htake4 : ((tagged ++ (mac ++ body)).take 4) = tagged.take 4 :=
    List.take_append_of_le_length (by omega)
  have htake8 : ((tagged ++ (mac ++ body)).take 8) = tagged :=
    take_append_len _ _ _ htag
  have hdrop8 : ((tagged ++ (mac ++ body)).drop 8) = mac ++ body :=
    drop_append_len _ _ _ htag
  have htakemac : ((mac ++ body).take cp.hmac_len) = mac :=
    take_append_len _ _ _ hmac
  have hdropL : ((tagged ++ (mac ++ body)).drop (8 + cp.hmac_len)) = body := by
    rw [← List.append_assoc]
    exact drop_append_len _ _ _ (by simp [htag, hmac])
  rw [read_control_auth_cons]
  simp only [hmode]
  rw [if_neg (by simp only [List.length_append, hsid]; omega),
      take_append_len sid (tagged ++ (mac ++ body)) SESSION_ID_SIZE hsid,
      drop_append_len sid (tagged ++ (mac ++ body)) SESSION_ID_SIZE hsid,
      if_neg (by simp only [List.length_append, htag, hmac]; omega),
      htake4, htake8, hdrop8, htakemac, hdropL, if_pos hver, if_pos hrep]

/-- Evaluation of `read_control_auth` on a well-formed encrypt-mode
record that decrypts successfully and whose packet id passes the
replay test. -/
theorem read_crypt_record (cp : crypto_provider) (ctx : tls_wrap_ctx)
    (hdr : Nat) (sid tagged ct body : List Nat)
    (hmode : ctx.mode = .TLS_WRAP_CRYPT)
    (hsid : sid.length = SESSION_ID_SIZE) (htag : tagged.length = 8)
    (hdec : cp.dec ctx.crypt_key ct = some body)
    (hrep : packet_id_test ctx.replay (decode4 (tagged.take 4)) = true) :
    read_control_auth cp ctx (hdr :: (sid ++ (tagged ++ ct)))
      = (true,
         { ctx with replay :=
             packet_id_add ctx.replay (decode4 (tagged.take 4)) },
         sid ++ body) := by
  have htake4 : ((tagged ++ ct).take 4) = tagged.take 4 :=
    List.take_append_of_le_length (by omega)
  have hdrop8 : ((tagged ++ ct).drop 8) = ct :=
    drop_append_len _ _ _ htag
  rw [read_control_auth_cons]
  simp only [hmode]
  rw [if_neg (by simp only [List.length_append, hsid]; omega),
      take_append_len sid (tagged ++ ct) SESSION_ID_SIZE hsid,
      drop_append_len sid (tagged ++ ct) SESSION_ID_SIZE hsid,
      if_neg (by simp only [List.length_append, htag]; omega),
      htake4, hdrop8, hdec]
  simp only [hrep, if_true]

/-! ## Frame geometry theorems -/

/-- The headroom as claim C5 words it: `extra_frame + extra_tun` rounded
up to the next multiple of 4 by adding `(-offset) mod 4`.  Stated
separately so it can be compared with the source's `frame_headroom`. -/
def frame_headroom_per_claim (f : frame) : Int :=
  let offset := f.extra_frame + f.extra_tun
  offset + (-offset) % 4

/-- A concrete frame with one byte of `extra_buffer` and nothing else. -/
def c5_frame : frame :=
  { link_mtu := 0, mss_fix := 0, link_mtu_dynamic := 0, extra_frame := 0,
    extra_buffer := 1, extra_tun := 0, extra_link := 0 }

/-- C5 counterexample: `frame_headroom` rounds up
`FRAME_HEADROOM_BASE = extra_frame + extra_tun + extra_buffer + extra_link`,
not `extra_frame + extra_tun`; with `extra_buffer = 1` the source gives
4 while the claimed value is 0. -/
theorem frame_headroom_ne_claimed :
    frame_headroom c5_frame = 4 ∧ frame_headroom_per_claim c5_frame = 0 ∧
      frame_headroom c5_frame ≠ frame_headroom_per_claim c5_frame := by
  refine ⟨by decide, by decide, by decide⟩

/-- C5 (amended): `frame_headroom f` equals
`FRAME_HEADROOM_BASE f = extra_frame + extra_tun + extra_buffer + extra_link`
rounded up to the next multiple of 4, the rounding computed with
wraparound-safe modular arithmetic equivalent to adding
`(-offset) mod 4`. -/
theorem frame_headroom_eq_base_round_up (f : frame) :
    frame_headroom f
      = FRAME_HEADROOM_BASE f + (-(FRAME_HEADROOM_BASE f)) % 4 := by
  simp only [frame_headroom, FRAME_HEADROOM_BASE, TUN_LINK_DELTA,
    PAYLOAD_ALIGN]
  omega

/-- C6: for every frame whose `extra_*` fields are non-negative,
`frame_headroom f` is divisible by 4 and at least
`extra_frame + extra_tun`. -/
theorem frame_headroom_aligned_and_covers
    (f : frame) (hef : 0 ≤ f.extra_frame) (heb : 0 ≤ f.extra_buffer)
    (het : 0 ≤ f.extra_tun) (hel : 0 ≤ f.extra_link) :
    4 ∣ frame_headroom f ∧ f.extra_frame + f.extra_tun ≤ frame_headroom f := by
  simp only [frame_headroom, FRAME_HEADROOM_BASE, TUN_LINK_DELTA,
    PAYLOAD_ALIGN]
  omega

/-- C6 witness: the theorem evaluated at a concrete frame with all
`extra_*` fields equal to 1. -/
theorem frame_headroom_aligned_and_covers_witness :
    4 ∣ frame_headroom
        { link_mtu := 100, mss_fix := 0, link_mtu_dynamic := 100,
          extra_frame := 1, extra_buffer := 1, extra_tun := 1,
          extra_link := 1 } ∧
      (1 : Int) + 1 ≤ frame_headroom
        { link_mtu := 100, mss_fix := 0, link_mtu_dynamic := 100,
          extra_frame := 1, extra_buffer := 1, extra_tun := 1,
          extra_link := 1 } :=
  frame_headroom_aligned_and_covers
    { link_mtu := 100, mss_fix := 0, link_mtu_dynamic := 100,
      extra_frame := 1, extra_buffer := 1, extra_tun := 1, extra_link := 1 }
    (by decide) (by decide) (by decide) (by decide)

/-- C7: with the `SET_MTU_UPPER_BOUND` flag (and without `SET_MTU_TUN`),
`frame_set_mtu_dynamic` assigns
`link_mtu_dynamic := min(link_mtu_dynamic, mtu)`; applied twice with
`v1` then `v2` it leaves `min(link_mtu_dynamic_before, v1, v2)`. -/
theorem frame_set_mtu_dynamic_upper_bound (f : frame) (v1 v2 : Int) :
    (frame_set_mtu_dynamic f v1 SET_MTU_UPPER_BOUND).link_mtu_dynamic
        = min f.link_mtu_dynamic v1 ∧
      (frame_set_mtu_dynamic (frame_set_mtu_dynamic f v1 SET_MTU_UPPER_BOUND)
          v2 SET_MTU_UPPER_BOUND).link_mtu_dynamic
        = min (min f.link_mtu_dynamic v1) v2 := by
  simp [frame_set_mtu_dynamic, SET_MTU_UPPER_BOUND, SET_MTU_TUN]

/-! ## Opcode and header-byte theorems -/

/-- C8: the header byte packs the opcode in bits 7–3 and the key-id in
bits 2–0 (extraction inverts composition for every 5-bit opcode and
3-bit key-id); the valid range runs from `P_FIRST_OPCODE = 3` to
`P_LAST_OPCODE = 10`, with the reserved v1 hard-reset opcodes 1 and 2
outside it; and the opcode constants have exactly the claimed values. -/
theorem pkt_header_byte_layout :
    (∀ op < 32, ∀ k < 8,
        pkt_opcode (pkt_header_byte op k) = op ∧
          pkt_key_id (pkt_header_byte op k) = k) ∧
      P_FIRST_OPCODE = 3 ∧ P_LAST_OPCODE = 10 ∧
      (∀ op : Nat, pkt_opcode_valid op = true ↔ 3 ≤ op ∧ op ≤ 10) ∧
      pkt_opcode_valid P_CONTROL_HARD_RESET_CLIENT_V1 = false ∧
      pkt_opcode_valid P_CONTROL_HARD_RESET_SERVER_V1 = false ∧
      P_CONTROL_SOFT_RESET_V1 = 3 ∧ P_CONTROL_V1 = 4 ∧ P_ACK_V1 = 5 ∧
      P_DATA_V1 = 6 ∧ P_DATA_V2 = 9 ∧
      P_CONTROL_HARD_RESET_CLIENT_V2 = 7 ∧
      P_CONTROL_HARD_RESET_SERVER_V2 = 8 ∧
      P_CONTROL_HARD_RESET_CLIENT_V3 = 10 := by
  refine ⟨by decide, rfl, rfl, ?_, by decide, by decide, rfl, rfl, rfl,
    rfl, rfl, rfl, rfl, rfl⟩
  intro op
  simp [pkt_opcode_valid, P_FIRST_OPCODE, P_LAST_OPCODE]

/-- C8 witness: the packing round-trip evaluated at opcode 7
(`P_CONTROL_HARD_RESET_CLIENT_V2`) and key-id 2. -/
theorem pkt_header_byte_layout_witness :
    pkt_opcode (pkt_header_byte 7 2) = 7 ∧
      pkt_key_id (pkt_header_byte 7 2) = 2 :=
  pkt_header_byte_layout.1 7 (by decide) 2 (by decide)

/-- C10: `packet_opcode_name` is total and pure: each of the ten defined
opcode values 1–10 maps to its fixed name, the ten names are pairwise
distinct, and every other integer maps to `"P_???"`. -/
theorem packet_opcode_name_total (op : Int) :
    (op = 1 → packet_opcode_name op = "P_CONTROL_HARD_RESET_CLIENT_V1") ∧
      (op = 2 → packet_opcode_name op = "P_CONTROL_HARD_RESET_SERVER_V1") ∧
      (op = 3 → packet_opcode_name op = "P_CONTROL_SOFT_RESET_V1") ∧
      (op = 4 → packet_opcode_name op = "P_CONTROL_V1") ∧
      (op = 5 → packet_opcode_name op = "P_ACK_V1") ∧
      (op = 6 → packet_opcode_name op = "P_DATA_V1") ∧
      (op = 7 → packet_opcode_name op = "P_CONTROL_HARD_RESET_CLIENT_V2") ∧
      (op = 8 → packet_opcode_name op = "P_CONTROL_HARD_RESET_SERVER_V2") ∧
      (op = 9 → packet_opcode_name op = "P_DATA_V2") ∧
      (op = 10 → packet_opcode_name op = "P_CONTROL_HARD_RESET_CLIENT_V3") ∧
      (¬(1 ≤ op ∧ op ≤ 10) → packet_opcode_name op = "P_???") ∧
      (([1, 2, 3, 4, 5, 6, 7, 8, 9, 10] : List Int).map
          packet_opcode_name).Nodup := by
  have hmap : (([1, 2, 3, 4, 5, 6, 7, 8, 9, 10] : List Int).map
      packet_opcode_name)
      = ["P_CONTROL_HARD_RESET_CLIENT_V1", "P_CONTROL_HARD_RESET_SERVER_V1",
         "P_CONTROL_SOFT_RESET_V1", "P_CONTROL_V1", "P_ACK_V1", "P_DATA_V1",
         "P_CONTROL_HARD_RESET_CLIENT_V2", "P_CONTROL_HARD_RESET_SERVER_V2",
         "P_DATA_V2", "P_CONTROL_HARD_RESET_CLIENT_V3"] := by rfl
  refine ⟨fun h => by subst h; rfl, fun h => by subst h; rfl,
    fun h => by subst h; rfl, fun h => by subst h; rfl,
    fun h => by subst h; rfl, fun h => by subst h; rfl,
    fun h => by subst h; rfl, fun h => by subst h; rfl,
    fun h => by subst h; rfl, fun h => by subst h; rfl,
    ?_, by rw [hmap]; decide⟩
  intro h
  unfold packet_opcode_name
  rw [if_neg (by simp only [P_CONTROL_HARD_RESET_CLIENT_V1, Nat.cast_one]; omega),
      if_neg (by simp only [P_CONTROL_HARD_RESET_SERVER_V1, Nat.cast_ofNat]; omega),
      if_neg (by simp only [P_CONTROL_HARD_RESET_CLIENT_V2, Nat.cast_ofNat]; omega),
      if_neg (by simp only [P_CONTROL_HARD_RESET_SERVER_V2, Nat.cast_ofNat]; omega),
      if_neg (by simp only [P_CONTROL_HARD_RESET_CLIENT_V3, Nat.cast_ofNat]; omega),
      if_neg (by simp only [P_CONTROL_SOFT_RESET_V1, Nat.cast_ofNat]; omega),
      if_neg (by simp only [P_CONTROL_V1, Nat.cast_ofNat]; omega),
      if_neg (by simp only [P_ACK_V1, Nat.cast_ofNat]; omega),
      if_neg (by simp only [P_DATA_V1, Nat.cast_ofNat]; omega),
      if_neg (by simp only [P_DATA_V2, Nat.cast_ofNat]; omega)]

/-! ## Codec round-trip (C2) -/

/-- C2: for every wrap mode (plain, authenticate,
encrypt-and-authenticate) and every payload buffer `buf`, when the
reading context uses keys matching those the writer used (peer HMAC key
= writer's local HMAC key, same cipher key, same mode), reading the
record produced by `write_control_auth` succeeds, de-wraps to the
session id, ack block and payload, and recovers the original payload
bytes of `buf` exactly. -/
theorem control_auth_roundtrip
    (cp : crypto_provider) (hcp : cp.wf) (w r : tls_wrap_ctx)
    (hmode : r.mode = w.mode) (hkey : r.peer_key = w.local_key)
    (hck : r.crypt_key = w.crypt_key)
    (opcode key_id : Nat) (sid remote_sid acks : List Nat)
    (prepend_ack : Bool) (pid ts : Nat) (buf : List Nat)
    (hsid : sid.length = SESSION_ID_SIZE)
    (hpid : pid < 2 ^ 32)
    (hreplay : packet_id_test r.replay pid = true) :
    (read_control_auth cp r (write_control_auth cp w opcode key_id sid
        remote_sid acks prepend_ack pid ts buf)).1 = true ∧
      (read_control_auth cp r (write_control_auth cp w opcode key_id sid
          remote_sid acks prepend_ack pid ts buf)).2.2
        = sid ++ (write_ack_block acks remote_sid prepend_ack ++ buf) ∧
      ((read_control_auth cp r (write_control_auth cp w opcode key_id sid
          remote_sid acks prepend_ack pid ts buf)).2.2).drop
          (SESSION_ID_SIZE +
            (write_ack_block acks remote_sid prepend_ack).length)
        = buf := by
  obtain ⟨hlen, hdec⟩ := hcp
  have hdropfull :
      (sid ++ (write_ack_block acks remote_sid prepend_ack ++ buf)).drop
          (SESSION_ID_SIZE +
            (write_ack_block acks remote_sid prepend_ack).length)
        = buf := by
    rw [← List.append_assoc]
    exact drop_append_len _ _ _ (by simp [hsid])
  have htag8 : (encode4 pid ++ encode4 ts).length = 8 := by
    simp [encode4]
  have htake4 : (encode4 pid ++ encode4 ts).take 4 = encode4 pid :=
    take_append_len _ _ _ (encode4_length pid)
  have hrep2 : packet_id_test r.replay
      (decode4 ((encode4 pid ++ encode4 ts).take 4)) = true := by
    rw [htake4, decode4_encode4 pid hpid]
    exact hreplay
  cases hw : w.mode
  case TLS_WRAP_NONE =>
    have hwr : write_control_auth cp w opcode key_id sid remote_sid acks
        prepend_ack pid ts buf
        = pkt_header_byte opcode key_id ::
            (sid ++ (write_ack_block acks remote_sid prepend_ack ++ buf)) := by
      simp [write_control_auth, hw]
    rw [hwr, read_none_record cp r (pkt_header_byte opcode key_id) sid
      (write_ack_block acks remote_sid prepend_ack ++ buf)
      (by rw [hmode, hw]) hsid]
    exact ⟨rfl, rfl, hdropfull⟩
  case TLS_WRAP_AUTH =>
    have hwr : write_control_auth cp w opcode key_id sid remote_sid acks
        prepend_ack pid ts buf
        = pkt_header_byte opcode key_id ::
            (sid ++ ((encode4 pid ++ encode4 ts) ++
              (cp.hmac w.local_key ((encode4 pid ++ encode4 ts) ++
                  (write_ack_block acks remote_sid prepend_ack ++ buf)) ++
                (write_ack_block acks remote_sid prepend_ack ++ buf)))) := by
      simp [write_control_auth, hw]
    have hver : cp.hmac r.peer_key ((encode4 pid ++ encode4 ts) ++
        (write_ack_block acks remote_sid prepend_ack ++ buf))
        = cp.hmac w.local_key ((encode4 pid ++ encode4 ts) ++
          (write_ack_block acks remote_sid prepend_ack ++ buf)) := by
      rw [hkey]
    rw [hwr, read_auth_record cp r (pkt_header_byte opcode key_id) sid
      (encode4 pid ++ encode4 ts)
      (cp.hmac w.local_key ((encode4 pid ++ encode4 ts) ++
        (write_ack_block acks remote_sid prepend_ack ++ buf)))
      (write_ack_block acks remote_sid prepend_ack ++ buf)
      (by rw [hmode, hw]) hsid htag8 (hlen _ _) hver hrep2]
    exact ⟨rfl, rfl, hdropfull⟩
  case TLS_WRAP_CRYPT =>
    have hwr : write_control_auth cp w opcode key_id sid remote_sid acks
        prepend_ack pid ts buf
        = pkt_header_byte opcode key_id ::
            (sid ++ ((encode4 pid ++ encode4 ts) ++
              cp.enc w.crypt_key
                (write_ack_block acks remote_sid prepend_ack ++ buf))) := by
      simp [write_control_auth, hw]
    have hdec2 : cp.dec r.crypt_key
        (cp.enc w.crypt_key
          (write_ack_block acks remote_sid prepend_ack ++ buf))
        = some (write_ack_block acks remote_sid prepend_ack ++ buf) := by
      rw [hck]
      exact hdec _ _
    rw [hwr, read_crypt_record cp r (pkt_header_byte opcode key_id) sid
      (encode4 pid ++ encode4 ts)
      (cp.enc w.crypt_key (write_ack_block acks remote_sid prepend_ack ++ buf))
      (write_ack_block acks remote_sid prepend_ack ++ buf)
      (by rw [hmode, hw]) hsid htag8 hdec2 hrep2]
    exact ⟨rfl, rfl, hdropfull⟩

/-- C2 witness: the round-trip evaluated with the trivial crypto
provider in authenticate mode on payload `[42]`. -/
theorem control_auth_roundtrip_witness :
    (read_control_auth trivial_crypto auth_wrap
        (write_control_auth trivial_crypto auth_wrap 4 0
          [1, 2, 3, 4, 5, 6, 7, 8] [] [] false 1 0 [42])).1 = true ∧
      (read_control_auth trivial_crypto auth_wrap
          (write_control_auth trivial_crypto auth_wrap 4 0
            [1, 2, 3, 4, 5, 6, 7, 8] [] [] false 1 0 [42])).2.2
        = [1, 2, 3, 4, 5, 6, 7, 8] ++ (write_ack_block [] [] false ++ [42]) ∧
      ((read_control_auth trivial_crypto auth_wrap
          (write_control_auth trivial_crypto auth_wrap 4 0
            [1, 2, 3, 4, 5, 6, 7, 8] [] [] false 1 0 [42])).2.2).drop
          (SESSION_ID_SIZE + (write_ack_block [] [] false).length)
        = [42] :=
  control_auth_roundtrip trivial_crypto
    ⟨fun _ _ => rfl, fun _ _ => rfl⟩ auth_wrap auth_wrap rfl rfl rfl
    4 0 [1, 2, 3, 4, 5, 6, 7, 8] [] [] false 1 0 [42]
    (by decide) (by decide) (by decide)

/-! ## Codec failure behaviour (C3) -/

/-- C3: `read_control_auth` fails by returning `false`, and on any
failure it applies no partial side effects — the wrap context (and with
it the replay window) is returned exactly as it was and no output bytes
are produced.  In particular an authenticate-mode record whose HMAC does
not verify or whose packet id fails the replay test is rejected, and an
encrypt-mode record whose decryption/tag check fails is rejected. -/
theorem read_control_auth_fail_no_side_effects
    (cp : crypto_provider) (ctx : tls_wrap_ctx) (buf : List Nat) :
    ((read_control_auth cp ctx buf).1 = false →
        read_control_auth cp ctx buf = (false, ctx, [])) ∧
      (∀ hdr : Nat, ∀ sid tagged mac body : List Nat,
          buf = hdr :: (sid ++ (tagged ++ (mac ++ body))) →
          sid.length = SESSION_ID_SIZE → tagged.length = 8 →
          mac.length = cp.hmac_len → ctx.mode = .TLS_WRAP_AUTH →
          (cp.hmac ctx.peer_key (tagged ++ body) ≠ mac ∨
            packet_id_test ctx.replay (decode4 (tagged.take 4)) = false) →
          (read_control_auth cp ctx buf).1 = false) ∧
      (∀ hdr : Nat, ∀ sid tagged ct : List Nat,
          buf = hdr :: (sid ++ (tagged ++ ct)) →
          sid.length = SESSION_ID_SIZE → tagged.length = 8 →
          ctx.mode = .TLS_WRAP_CRYPT →
          cp.dec ctx.crypt_key ct = none →
          (read_control_auth cp ctx buf).1 = false) := by
  refine ⟨?_, ?_, ?_⟩
  · cases buf with
    | nil => intro _; rfl
    | cons hdr rest =>
      rw [read_control_auth_cons]
      cases hm : ctx.mode <;> simp only [hm]
      · split_ifs <;> intro h <;> first | rfl | simp at h
      · split_ifs <;> intro h <;> first | rfl | simp at h
      · cases hdc : cp.dec ctx.crypt_key
            (List.drop 8 (List.drop SESSION_ID_SIZE rest)) <;>
          simp only [hdc] <;> split_ifs <;> intro h <;>
          first | rfl | simp at h
  · intro hdr sid tagged mac body hbuf hsid htag hmac hm hfail
    subst hbuf
    have htake4 : ((tagged ++ (mac ++ body)).take 4) = tagged.take 4 :=
      List.take_append_of_le_length (by omega)
    have htake8 : ((tagged ++ (mac ++ body)).take 8) = tagged :=
      take_append_len _ _ _ htag
    have hdrop8 : ((tagged ++ (mac ++ body)).drop 8) = mac ++ body :=
      drop_append_len _ _ _ htag
    have htakemac : ((mac ++ body).take cp.hmac_len) = mac :=
      take_append_len _ _ _ hmac
    have hdropL : ((tagged ++ (mac ++ body)).drop (8 + cp.hmac_len))
        = body := by
      rw [← List.append_assoc]
      exact drop_append_len _ _ _ (by simp [htag, hmac])
    rw [read_control_auth_cons]
    simp only [hm]
    rw [if_neg (by simp only [List.length_append, hsid]; omega),
        drop_append_len sid (tagged ++ (mac ++ body)) SESSION_ID_SIZE hsid,
        if_neg (by simp only [List.length_append, htag, hmac]; omega),
        htake4, htake8, hdrop8, htakemac, hdropL]
    rcases hfail with hne | hrep
    · rw [if_neg hne]
    · by_cases he : cp.hmac ctx.peer_key (tagged ++ body) = mac
      · rw [if_pos he, if_neg (by simp [hrep])]
      · rw [if_neg he]
  · intro hdr sid tagged ct hbuf hsid htag hm hdc
    subst hbuf
    have hdrop8 : ((tagged ++ ct).drop 8) = ct :=
      drop_append_len _ _ _ htag
    rw [read_control_auth_cons]
    simp only [hm]
    rw [if_neg (by simp only [List.length_append, hsid]; omega),
        drop_append_len sid (tagged ++ ct) SESSION_ID_SIZE hsid,
        if_neg (by simp only [List.length_append, htag]; omega),
        hdrop8, hdc]

/-- C3 witness: an authenticate-mode record carrying the tag `[1]` where
the trivial provider computes `[0]` is rejected. -/
theorem read_control_auth_fail_witness :
    (read_control_auth trivial_crypto auth_wrap
        (0 :: ([1, 2, 3, 4, 5, 6, 7, 8] ++
          ([0, 0, 0, 1, 0, 0, 0, 0] ++ ([1] ++ [9]))))).1 = false :=
  (read_control_auth_fail_no_side_effects trivial_crypto auth_wrap
      (0 :: ([1, 2, 3, 4, 5, 6, 7, 8] ++
        ([0, 0, 0, 1, 0, 0, 0, 0] ++ ([1] ++ [9]))))).2.1
    0 [1, 2, 3, 4, 5, 6, 7, 8] [0, 0, 0, 1, 0, 0, 0, 0] [1] [9]
    rfl (by decide) (by decide) (by decide) rfl (Or.inl (by decide))

/-- C10 witness: an out-of-range opcode maps to the default name. -/
theorem packet_opcode_name_total_witness :
    packet_opcode_name 255 = "P_???" :=
  ((((((((((packet_opcode_name_total 255).2).2).2).2).2).2).2).2).2).2.1
    (by decide)

/-! ## Pre-session classifier theorems (C1, C4) -/

/-- C1: `tls_pre_decrypt_lite` yields exactly one of the three verdicts
`VERDICT_VALID_RESET`, `VERDICT_VALID_CONTROL_V1`, `VERDICT_INVALID`;
any datagram whose leading-byte opcode lies outside the closed range
`P_FIRST_OPCODE..P_LAST_OPCODE` (3..10) is classified
`VERDICT_INVALID`; and every opcode in 3..10 passes the structural
opcode check `pkt_opcode_valid` used by the classifier. -/
theorem tls_pre_decrypt_lite_verdicts
    (cp : crypto_provider) (tas : tls_auth_standalone)
    (st : tls_pre_decrypt_state) (buf : List Nat) :
    ((tls_pre_decrypt_lite cp tas st buf).1 = .VERDICT_VALID_RESET ∨
        (tls_pre_decrypt_lite cp tas st buf).1 = .VERDICT_VALID_CONTROL_V1 ∨
        (tls_pre_decrypt_lite cp tas st buf).1 = .VERDICT_INVALID) ∧
      (∀ b rest, buf = b :: rest →
          ¬(P_FIRST_OPCODE ≤ pkt_opcode b ∧ pkt_opcode b ≤ P_LAST_OPCODE) →
          (tls_pre_decrypt_lite cp tas st buf).1 = .VERDICT_INVALID) ∧
      (∀ op : Nat, P_FIRST_OPCODE ≤ op → op ≤ P_LAST_OPCODE →
          pkt_opcode_valid op = true) := by
  refine ⟨?_, ?_, ?_⟩
  · generalize (tls_pre_decrypt_lite cp tas st buf).1 = v
    cases v <;> simp
  · intro b rest hbuf hop
    subst hbuf
    simp only [P_FIRST_OPCODE, P_LAST_OPCODE] at hop
    simp only [tls_pre_decrypt_lite]
    by_cases h1 : (b :: rest).length < MIN_PRE_DECRYPT_LEN
    · rw [if_pos h1]
    · rw [if_neg h1]
      by_cases h2 : MAX_RW_SIZE_LINK tas.frame < ((b :: rest).length : Int)
      · rw [if_pos (by simpa using h2)]
      · have hv : pkt_opcode_valid (pkt_opcode b) = false := by
          simp only [pkt_opcode_valid, P_FIRST_OPCODE, P_LAST_OPCODE,
            Bool.and_eq_false_iff, decide_eq_false_iff_not]
          omega
        rw [if_neg (by simpa using h2)]
        simp [hv]
  · intro op h1 h2
    simp only [P_FIRST_OPCODE] at h1
    simp only [P_LAST_OPCODE] at h2
    simp only [pkt_opcode_valid, P_FIRST_OPCODE, P_LAST_OPCODE,
      Bool.and_eq_true, decide_eq_true_eq]
    omega

/-- C1 witness: a one-byte datagram with opcode 1 (header byte 8) is
classified invalid, and opcodes 3 and 10 pass the structural check. -/
theorem tls_pre_decrypt_lite_verdicts_witness :
    (tls_pre_decrypt_lite trivial_crypto test_tas empty_state [8]).1
        = .VERDICT_INVALID ∧
      pkt_opcode_valid 3 = true ∧ pkt_opcode_valid 10 = true :=
  ⟨(tls_pre_decrypt_lite_verdicts trivial_crypto test_tas empty_state
      [8]).2.1 8 [] rfl (by decide),
   (tls_pre_decrypt_lite_verdicts trivial_crypto test_tas empty_state
      [8]).2.2 3 (by decide) (by decide),
   (tls_pre_decrypt_lite_verdicts trivial_crypto test_tas empty_state
      [8]).2.2 10 (by decide) (by decide)⟩

/-- C4: a `tls_pre_decrypt_lite` call mutates no durable state — the
standalone configuration and the incoming packet buffer components of
the call frame are returned unchanged; the only component written is
the caller-owned scratch `tls_pre_decrypt_state`. -/
theorem tls_pre_decrypt_lite_no_durable_mutation
    (cp : crypto_provider) (w : lite_call_state) :
    (tls_pre_decrypt_lite_call cp w).2.tas = w.tas ∧
      (tls_pre_decrypt_lite_call cp w).2.buf = w.buf ∧
      (tls_pre_decrypt_lite_call cp w).2.st
        = (tls_pre_decrypt_lite cp w.tas w.st w.buf).2 :=
  ⟨rfl, rfl, rfl⟩

/-! ## DCO stub theorems -/

/-- C9 counterexample: in the build without DCO, calling `dco_do_read`
triggers `ASSERT(false)` — a fatal assertion, not a no-op and not a
report of unsupported/unavailable. -/
theorem dco_stub_not_all_benign :
    dco_stub .dco_do_read = .fatal_assert ∧
      stub_benign (dco_stub .dco_do_read) = false := by
  exact ⟨rfl, rfl⟩

/-- C9 (amended): in the build without DCO, every DCO operation other
than `dco_do_read`, `dco_do_write` and `dco_update_keys` is a no-op or
merely reports a value (`dco_available` reports unavailable by
returning false); those three operations instead trigger a fatal
`ASSERT(false)`. -/
theorem dco_stub_behaviour (op : dco_op)
    (h1 : op ≠ .dco_do_read) (h2 : op ≠ .dco_do_write)
    (h3 : op ≠ .dco_update_keys) :
    stub_benign (dco_stub op) = true ∧
      dco_stub .dco_available = .ret_bool false ∧
      dco_stub .dco_do_read = .fatal_assert ∧
      dco_stub .dco_do_write = .fatal_assert ∧
      dco_stub .dco_update_keys = .fatal_assert := by
  refine ⟨?_, rfl, rfl, rfl, rfl⟩
  cases op <;> first
    | rfl
    | exact absurd rfl h1
    | exact absurd rfl h2
    | exact absurd rfl h3

/-- C9 witness: the amended theorem evaluated at `close_tun_dco`. -/
theorem dco_stub_behaviour_witness :
    stub_benign (dco_stub .close_tun_dco) = true :=
  (dco_stub_behaviour .close_tun_dco (by decide) (by decide) (by decide)).1

end OpenVPN
